import Mathlib

/-!
Shallow embedding of the `rawbak/Store` catalog module
(`src/store_admin/app_products/views.py` and
`src/store_admin/app_products/admin.py`).

Database rows are Lean structures, querysets are lists of rows, the external
Redis cache is a key-to-list map, and each view handler is an explicit
state-passing function.  Modules of the repository that are imported by the
two source files but are not under `src/` (the `decorator_count_views`
service, the forms and filter modules) are modelled from the specification;
each such definition carries a doc comment starting `Modelled from the spec:`.
-/

/-- Product identifiers (`product_id`, a UUID field) modelled as strings. -/
abbrev UUID := String

/-- Category row (`app_categories.models.Category`): the fields the two
source files read. -/
structure Category where
  name : String
  slug : String
  is_active : Bool
deriving DecidableEq, Repr

/-- Product row (`app_products.models.Product`): the fields the two source
files read.  `added` is the creation timestamp, as a natural number. -/
structure Product where
  product_id : UUID
  name : String
  price : Nat
  added : Nat
  category_fk : Category
deriving DecidableEq, Repr

/-- Feedback row (`app_products.models.Feedback`): the fields written by
`ProductDetailView.post` (`text`, `user_fk`, `product_fk`). -/
structure Feedback where
  text : String
  user_fk : String
  product_fk : UUID
deriving DecidableEq, Repr

/-- ProductFeature row (`app_products.models.ProductFeature`): the fields
the admin inline displays. -/
structure ProductFeature where
  feature_fk : String
  value : String
deriving DecidableEq, Repr

/-- Error raised by the Redis client (`redis.exceptions.RedisError`). -/
structure RedisError where
  msg : String
deriving DecidableEq, Repr

/-- State of the external Redis key-value store: each key holds a list. -/
structure RedisState where
  store : String → List UUID

/-- Read operations performed on the Redis connection, recorded so that
theorems can speak about which key and range a view reads. -/
inductive RedisOp
  | lrange (key : String) (start stop : Int)
deriving DecidableEq, Repr

/-- Redis `LRANGE` index normalisation: a negative index counts from the end
of the list. -/
def normIndex (len : Nat) (i : Int) : Int :=
  if i < 0 then (len : Int) + i else i

/-- Redis `LRANGE key start stop`: the elements whose (normalised) index lies
between `start` and `stop`, both inclusive, clamped to the list. -/
def lrange (l : List UUID) (start stop : Int) : List UUID :=
  let len := l.length
  let s : Int := max (normIndex len start) 0
  let e : Int := min (normIndex len stop) ((len : Int) - 1)
  if e < s then []
  else (l.drop s.toNat).take (e - s + 1).toNat

/-- Log levels used by `views.py` (`logger.error`, `logger.warning`). -/
inductive LogLevel
  | error
  | warning
deriving DecidableEq, Repr

/-- One record emitted through the module logger. -/
structure LogEntry where
  level : LogLevel
  msg : String
deriving DecidableEq, Repr

/-- Modelled from the spec: `NAME_ATRS_CACHE` is defined in
`app_products/services/decorator_count_views.py`, which is not under `src/`;
only its import and its use in `views.py` are.  The spec describes the
popular-products read as using "a per-request host-keyed list identifier",
so the table is modelled as a total map from the request's host to a pair of
cache identifiers, of which `views.py` uses the second (`[1]`). -/
def NAME_ATRS_CACHE (host : String) : String × String :=
  (host ++ ":count_views", host ++ ":popular_products")

/-- HTTP request, as read by the three views: the host, the GET query
parameters, the POST `text` field, the validity verdict the framework's form
validation gives that POST data, and the authenticated user. -/
structure Request where
  host : String
  getParams : String → Option String
  postText : String
  postValid : Bool
  user : String

/-- Modelled from the spec: `FeedbackNewForm` (`app_products/forms.py`) is
not under `src/`.  The spec describes "a simple feedback submission flow"
whose "form validation ... is delegated to framework defaults", so the form
is modelled as carrying the submitted text and the framework's validity
verdict for it. -/
structure FeedbackNewForm where
  text : String
  is_valid : Bool
deriving DecidableEq, Repr

/-- The `text` entry of the form's `cleaned_data`. -/
def FeedbackNewForm.cleaned_data_text (f : FeedbackNewForm) : String :=
  f.text

/-- Full mutable state a request handler can touch: the external Redis cache
and the two database tables the views read or write. -/
structure Store where
  redis : RedisState
  products : List Product
  feedbacks : List Feedback

/-- HTTP response: the rendered template, the status code, and the context
entries the claims are about. -/
structure Response where
  template : String
  status : Nat
  context_product : Option UUID
  context_feedbacks : List Feedback
deriving DecidableEq, Repr

namespace ProductDetailView

/-- Body of `ProductDetailView.get` before decoration: render the detail
template for the product, with the product's feedback rows in the context
(`get_context_data`).  Reads only. -/
def get_base (_req : Request) (product : Product) (store : Store) :
    Store × Response :=
  (store,
   { template := "app_products/product_detail.html"
     status := 200
     context_product := some product.product_id
     context_feedbacks :=
       store.feedbacks.filter (fun f => f.product_fk == product.product_id) })

end ProductDetailView

/-- Modelled from the spec: `cache_popular_product` is defined in
`app_products/services/decorator_count_views.py`, which is not under `src/`;
only its import and its use as a decorator on `ProductDetailView.get` are.
The spec states that for the external cache "no population/write path is
defined here", so the decorator is modelled as delegating to the wrapped
handler without touching the store. -/
def cache_popular_product
    (handler : Request → Product → Store → Store × Response) :
    Request → Product → Store → Store × Response :=
  handler

namespace ProductDetailView

/-- `ProductDetailView.get`: the base handler wrapped by the
`@cache_popular_product` decorator. -/
def get : Request → Product → Store → Store × Response :=
  cache_popular_product get_base

/-- `ProductDetailView.post`: bind `FeedbackNewForm` to the POST data; when
it is valid, create one Feedback row from the cleaned text, the requesting
user and the viewed product; in both cases return `self.get(...)`. -/
def post (req : Request) (product : Product) (store : Store) :
    Store × Response :=
  let form : FeedbackNewForm := { text := req.postText, is_valid := req.postValid }
  let store2 : Store :=
    if form.is_valid then
      { store with
          feedbacks := store.feedbacks ++
            [{ text := form.cleaned_data_text
               user_fk := req.user
               product_fk := product.product_id }] }
    else store
  get req product store2

end ProductDetailView

/-- Filter applied by `PopularProductListView.get_queryset`:
`.filter(category_fk__is_active=True, product_id__in=popular_product_range)`. -/
def popularFilter (products : List Product) (range : List UUID) : List Product :=
  products.filter
    (fun p => p.category_fk.is_active && range.contains p.product_id)

/-- Everything `PopularProductListView.get_queryset` produces: the state
after the request, the Redis reads performed, the log records emitted, the
`popular_product_range` obtained, and the resulting queryset. -/
structure PopularResult where
  store : Store
  ops : List RedisOp
  log : List LogEntry
  range : List UUID
  queryset : List Product

namespace PopularProductListView

/-- `PopularProductListView.get_queryset`: inside a scoped Redis connection,
`lrange` the list named `NAME_ATRS_CACHE.get(host)[1]` over the full range
`0..-1`; on `RedisError`, log at error level (then a warning) and fall back
to an empty range; finally filter products to active categories whose
`product_id` is in the range.  `connErr` is the outcome of opening the
connection: `none` when it succeeds, `some err` when the client raises. -/
def get_queryset (connErr : Option RedisError) (req : Request)
    (store : Store) : PopularResult :=
  match connErr with
  | some err =>
      { store := store
        ops := []
        log := [{ level := LogLevel.error
                  msg := "Error connection to Redis | " ++ err.msg },
                { level := LogLevel.warning
                  msg := "not cache popular product" }]
        range := []
        queryset := popularFilter store.products [] }
  | none =>
      let key := (NAME_ATRS_CACHE req.host).2
      let popular_product_range := lrange (store.redis.store key) 0 (-1)
      { store := store
        ops := [RedisOp.lrange key 0 (-1)]
        log := []
        range := popular_product_range
        queryset := popularFilter store.products popular_product_range }

end PopularProductListView

/-- Django querysets are lazily ordered: `order_by` records the ordering
fields, and the database applies them at evaluation.  The shallow embedding
keeps the row list together with the recorded ordering. -/
structure QuerySet where
  items : List Product
  ordering : List String
deriving DecidableEq, Repr

/-- `QuerySet.order_by(field)`: replace the recorded ordering. -/
def QuerySet.order_by (qs : QuerySet) (field : String) : QuerySet :=
  { qs with ordering := [field] }

/-- Modelled from the spec: `ProductFilter`
(`app_products/filters/product_filters.py`) is not under `src/`.  The spec
calls the list view "standard filter/sort/paginate which the framework
provides": the filter narrows the queryset by the request's parameters and
leaves its ordering unchanged.  The parameter-derived row predicate is
abstracted as `pred`. -/
def ProductFilter.qs (pred : Product → Bool) (queryset : QuerySet) : QuerySet :=
  { queryset with items := queryset.items.filter pred }

namespace ProductListView

/-- `ProductListView.paginate_by = 8`. -/
def paginate_by : Nat := 8

/-- `ProductListView.get_queryset`: restrict products to the requested
subcategory; when `request.GET.get('sort')` is missing or empty (falsy in
Python), order by `-added`, otherwise order by the parameter's value; then
return `product_filter.qs`. -/
def get_queryset (req : Request) (pred : Product → Bool)
    (products : List Product) (subcategory : Category) : QuerySet :=
  let queryset : QuerySet :=
    { items := products.filter (fun p => p.category_fk == subcategory)
      ordering := [] }
  let queryset :=
    if (req.getParams "sort").getD "" = "" then
      queryset.order_by "-added"
    else
      queryset.order_by ((req.getParams "sort").getD "")
  ProductFilter.qs pred queryset

/-- Full request step of the catalog list view: it touches neither the
Redis cache nor the database tables, it only builds a queryset. -/
def handle (req : Request) (pred : Product → Bool)
    (subcategory : Category) (store : Store) : Store × QuerySet :=
  (store, get_queryset req pred store.products subcategory)

end ProductListView

/-- Pagination as the framework's `Paginator` provides it for `ListView`:
page `number` (1-based) holds the slice of `per_page` items starting at
offset `(number - 1) * per_page`. -/
def Paginator.page (object_list : List Product) (per_page : Nat)
    (number : Nat) : List Product :=
  (object_list.drop ((number - 1) * per_page)).take per_page

/-- Product object as the admin panel saves it: `product_id` is `None`
(falsy) until one is assigned. -/
structure AdminProduct where
  product_id : Option UUID
deriving DecidableEq, Repr

/-- Which save the admin performs: `obj.save(update_fields=...)` when
`category_fk` is among the changed fields, the default full save otherwise. -/
inductive SaveAction
  | update_fields (fields : List String)
  | full_save
deriving DecidableEq, Repr

namespace ProductAdmin

/-- `ProductAdmin.save_model`: when the object has no `product_id`, assign a
fresh UUID (`uuid4()`, passed in as `fresh`); then save with
`update_fields=form.changed_data` when `category_fk` changed, or via the
default save otherwise. -/
def save_model (fresh : UUID) (obj : AdminProduct)
    (changed_data : List String) : AdminProduct × SaveAction :=
  let obj := if obj.product_id = none then { obj with product_id := some fresh }
             else obj
  if changed_data.contains "category_fk" then
    (obj, SaveAction.update_fields changed_data)
  else
    (obj, SaveAction.full_save)

end ProductAdmin

namespace FeatureProductInline

/-- `FeatureProductInline.has_add_permission(request, obj)`: always False. -/
def has_add_permission (_req : Request) (_obj : Option Product) : Bool :=
  false

/-- `FeatureProductInline.has_delete_permission(request, obj=None)`: always
False. -/
def has_delete_permission (_req : Request) (_obj : Option Product) : Bool :=
  false

end FeatureProductInline

/-- Row changes as the framework's admin inline applies them: requested
additions are applied only when `has_add_permission` grants them, requested
deletions only when `has_delete_permission` grants them. -/
def TabularInline.apply_changes (can_add can_delete : Bool)
    (rows adds deletes : List ProductFeature) : List ProductFeature :=
  let rows2 := if can_add then rows ++ adds else rows
  if can_delete then rows2.filter (fun r => !(deletes.contains r)) else rows2

/-- A sample category, used by witnesses. -/
def sampleCategory : Category :=
  { name := "phones", slug := "phones", is_active := true }

/-- A sample product, used by witnesses. -/
def sampleProduct : Product :=
  { product_id := "p1", name := "phone", price := 10, added := 5
    category_fk := sampleCategory }

/-- An empty Redis store, used by witnesses. -/
def emptyRedis : RedisState :=
  { store := fun _ => [] }

/-- A sample store state, used by witnesses. -/
def sampleStore : Store :=
  { redis := emptyRedis, products := [sampleProduct], feedbacks := [] }

/-- A sample request carrying a valid feedback POST, used by witnesses. -/
def sampleValidRequest : Request :=
  { host := "example.com", getParams := fun _ => none
    postText := "nice", postValid := true, user := "alice" }

/-- A sample request carrying an invalid feedback POST, used by witnesses. -/
def sampleInvalidRequest : Request :=
  { host := "example.com", getParams := fun _ => none
    postText := "", postValid := false, user := "alice" }

/-- A request whose `sort` GET parameter is present but empty, as produced
by a URL ending in `?sort=`. -/
def sortEmptyRequest : Request :=
  { host := "example.com"
    getParams := fun k => if k = "sort" then some "" else none
    postText := "", postValid := false, user := "alice" }

/-- A request whose `sort` GET parameter is `price`. -/
def sortPriceRequest : Request :=
  { host := "example.com"
    getParams := fun k => if k = "sort" then some "price" else none
    postText := "", postValid := false, user := "alice" }

/-- Redis `LRANGE key 0 -1` returns the whole stored list. -/
theorem lrange_full (l : List UUID) : lrange l 0 (-1) = l := by
  unfold lrange normIndex
  rcases l with _ | ⟨a, t⟩
  · rfl
  · simp only [List.length_cons]
    norm_num

/-- C1: for every request to the popular-products view, when the external
cache read fails, the failure is caught, logged at error level, and the view
degrades to an empty result set instead of the request failing. -/
theorem popular_cache_failure_degrades (err : RedisError) (req : Request)
    (store : Store) :
    (PopularProductListView.get_queryset (some err) req store).queryset = []
    ∧ ∃ e ∈ (PopularProductListView.get_queryset (some err) req store).log,
        e.level = LogLevel.error := by
  constructor
  · simp [PopularProductListView.get_queryset, popularFilter, List.contains]
  · exact ⟨{ level := LogLevel.error
             msg := "Error connection to Redis | " ++ err.msg },
           by simp [PopularProductListView.get_queryset], rfl⟩

/-- C2: no operation in this codebase writes to the external key-value
cache: each of the listed view handlers leaves the Redis state unchanged. -/
theorem views_do_not_write_cache (req : Request) (connErr : Option RedisError)
    (product : Product) (pred : Product → Bool) (subcategory : Category)
    (store : Store) :
    (ProductListView.handle req pred subcategory store).1.redis = store.redis
    ∧ (ProductDetailView.get req product store).1.redis = store.redis
    ∧ (ProductDetailView.post req product store).1.redis = store.redis
    ∧ (PopularProductListView.get_queryset connErr req store).store.redis
        = store.redis := by
  refine ⟨rfl, rfl, ?_, ?_⟩
  · cases h : req.postValid <;>
      simp [ProductDetailView.post, ProductDetailView.get,
            cache_popular_product, ProductDetailView.get_base, h]
  · cases connErr <;> rfl

/-- C3: for every request to the popular-products view, the external store
is read with the list identifier `NAME_ATRS_CACHE[host][1]` over the full
list range, and the read is tolerant of connection failure. -/
theorem popular_read_host_keyed_full_range (req : Request) (store : Store)
    (err : RedisError) :
    (PopularProductListView.get_queryset none req store).ops
      = [RedisOp.lrange ((NAME_ATRS_CACHE req.host).2) 0 (-1)]
    ∧ (PopularProductListView.get_queryset none req store).range
      = store.redis.store ((NAME_ATRS_CACHE req.host).2)
    ∧ (PopularProductListView.get_queryset (some err) req store).range
      = [] := by
  refine ⟨rfl, ?_, rfl⟩
  simp [PopularProductListView.get_queryset, lrange_full]

/-- C4: for every POST to the product detail view whose feedback form is
valid, exactly one Feedback row is appended, carrying the submitted text,
the requesting user and the viewed product, and the response returned is the
GET response for that product. -/
theorem post_valid_creates_feedback (req : Request) (product : Product)
    (store : Store) (h : req.postValid = true) :
    (ProductDetailView.post req product store).1.feedbacks
      = store.feedbacks ++
        [{ text := req.postText, user_fk := req.user
           product_fk := product.product_id }]
    ∧ (ProductDetailView.post req product store).2
      = (ProductDetailView.get req product
          (ProductDetailView.post req product store).1).2 := by
  constructor <;>
    simp [ProductDetailView.post, ProductDetailView.get, cache_popular_product,
          ProductDetailView.get_base, FeedbackNewForm.cleaned_data_text, h]

/-- C4 witness: the theorem at a concrete valid POST. -/
theorem post_valid_creates_feedback_witness :
    (ProductDetailView.post sampleValidRequest sampleProduct sampleStore).1.feedbacks
      = sampleStore.feedbacks ++
        [{ text := sampleValidRequest.postText, user_fk := sampleValidRequest.user
           product_fk := sampleProduct.product_id }]
    ∧ (ProductDetailView.post sampleValidRequest sampleProduct sampleStore).2
      = (ProductDetailView.get sampleValidRequest sampleProduct
          (ProductDetailView.post sampleValidRequest sampleProduct sampleStore).1).2 :=
  post_valid_creates_feedback sampleValidRequest sampleProduct sampleStore rfl

/-- C5 counterexample: a request whose `sort` GET parameter is present but
empty (URL `?sort=`) is not ordered by the parameter's value: the code takes
the falsy branch and orders by `-added`. -/
theorem sort_param_empty_counterexample :
    sortEmptyRequest.getParams "sort" = some ""
    ∧ (ProductListView.get_queryset sortEmptyRequest (fun _ => true) []
        sampleCategory).ordering = ["-added"]
    ∧ (["-added"] : List String) ≠ [""] := by
  refine ⟨rfl, rfl, by decide⟩

/-- C5 amended: without a `sort` GET parameter, or with an empty one, the
queryset is ordered by descending added date (`-added`); with a non-empty
`sort` parameter, the queryset is ordered by that parameter's value. -/
theorem productlist_ordering_amended (req : Request) (pred : Product → Bool)
    (products : List Product) (subcategory : Category) :
    ((req.getParams "sort").getD "" = "" →
      (ProductListView.get_queryset req pred products subcategory).ordering
        = ["-added"])
    ∧ ∀ s, req.getParams "sort" = some s → s ≠ "" →
        (ProductListView.get_queryset req pred products subcategory).ordering
          = [s] := by
  constructor
  · intro h
    simp [ProductListView.get_queryset, ProductFilter.qs, QuerySet.order_by, h]
  · intro s hs hne
    simp [ProductListView.get_queryset, ProductFilter.qs, QuerySet.order_by,
          hs, hne]

/-- C5 witness: the amended theorem at a concrete request sorting by
`price`. -/
theorem productlist_ordering_amended_witness :
    (ProductListView.get_queryset sortPriceRequest (fun _ => true) []
      sampleCategory).ordering = ["price"] :=
  (productlist_ordering_amended sortPriceRequest (fun _ => true) []
    sampleCategory).2 "price" rfl (by decide)

/-- C6: a product is in the popular-products queryset exactly when it is in
the product table, its category is active, and its `product_id` is in the
range read from the external cache. -/
theorem popular_queryset_membership (connErr : Option RedisError)
    (req : Request) (store : Store) (p : Product) :
    p ∈ (PopularProductListView.get_queryset connErr req store).queryset
    ↔ p ∈ store.products ∧ p.category_fk.is_active = true
      ∧ p.product_id
          ∈ (PopularProductListView.get_queryset connErr req store).range := by
  cases connErr <;>
    simp [PopularProductListView.get_queryset, popularFilter, List.mem_filter,
          List.contains, List.elem_iff, and_assoc]

/-- C7: the catalog list view paginates by `paginate_by = 8`: every page of
every result set holds at most 8 products. -/
theorem productlist_page_size_le (items : List Product) (number : Nat) :
    (Paginator.page items ProductListView.paginate_by number).length ≤ 8 := by
  simp [Paginator.page, ProductListView.paginate_by, List.length_take]

/-- C8: for every POST to the product detail view whose feedback form is
invalid, the store is unchanged (no Feedback row is created) and the
response returned is the GET response, with status 200, not an error
response. -/
theorem post_invalid_leaves_state (req : Request) (product : Product)
    (store : Store) (h : req.postValid = false) :
    (ProductDetailView.post req product store).1 = store
    ∧ (ProductDetailView.post req product store).2
      = (ProductDetailView.get req product store).2
    ∧ ((ProductDetailView.post req product store).2).status = 200 := by
  refine ⟨?_, ?_, ?_⟩ <;>
    simp [ProductDetailView.post, ProductDetailView.get, cache_popular_product,
          ProductDetailView.get_base, h]

/-- C8 witness: the theorem at a concrete invalid POST. -/
theorem post_invalid_leaves_state_witness :
    (ProductDetailView.post sampleInvalidRequest sampleProduct sampleStore).1
      = sampleStore
    ∧ (ProductDetailView.post sampleInvalidRequest sampleProduct sampleStore).2
      = (ProductDetailView.get sampleInvalidRequest sampleProduct sampleStore).2
    ∧ ((ProductDetailView.post sampleInvalidRequest sampleProduct
        sampleStore).2).status = 200 :=
  post_invalid_leaves_state sampleInvalidRequest sampleProduct sampleStore rfl

/-- C9: every product saved through the admin panel leaves `save_model` with
a non-null `product_id`; an object lacking one gets the fresh UUID, and an
existing one is never overwritten. -/
theorem save_model_product_id_invariant (fresh : UUID) (obj : AdminProduct)
    (changed_data : List String) :
    (ProductAdmin.save_model fresh obj changed_data).1.product_id ≠ none
    ∧ (obj.product_id = none →
        (ProductAdmin.save_model fresh obj changed_data).1.product_id
          = some fresh)
    ∧ ∀ u, obj.product_id = some u →
        (ProductAdmin.save_model fresh obj changed_data).1.product_id
          = some u := by
  unfold ProductAdmin.save_model
  rcases hobj : obj.product_id with _ | u <;>
    cases h2 : changed_data.contains "category_fk" <;> simp [hobj, h2]

/-- C9 witness: the theorem at concrete objects, one lacking a `product_id`
and one already carrying one. -/
theorem save_model_product_id_invariant_witness :
    (ProductAdmin.save_model "u-new" { product_id := none } []).1.product_id
      = some "u-new"
    ∧ (ProductAdmin.save_model "u-new" { product_id := some "u-old" }
        ["category_fk"]).1.product_id = some "u-old" :=
  ⟨(save_model_product_id_invariant "u-new" { product_id := none } []).2.1 rfl,
   (save_model_product_id_invariant "u-new" { product_id := some "u-old" }
     ["category_fk"]).2.2 "u-old" rfl⟩

/-- C10: the admin feature inline forbids both adding and deleting product
features for every request and object, so applying any requested inline
changes leaves the ProductFeature rows unchanged. -/
theorem feature_inline_no_add_no_delete (req : Request) (obj : Option Product)
    (rows adds deletes : List ProductFeature) :
    FeatureProductInline.has_add_permission req obj = false
    ∧ FeatureProductInline.has_delete_permission req obj = false
    ∧ TabularInline.apply_changes
        (FeatureProductInline.has_add_permission req obj)
        (FeatureProductInline.has_delete_permission req obj)
        rows adds deletes = rows :=
  ⟨rfl, rfl, rfl⟩
